import Mathlib

/-!
Verification development for the HF-Space-Helper monitor (`run.py`).

The Python program monitors a list of Hugging Face "spaces": for each target
it probes a structured runtime endpoint and the raw HTML page, classifies the
liveness state, optionally waits for a wake-up, and optionally issues an
authenticated restart.  All network and clock effects are shallowly embedded:
each outbound request's result is supplied as an explicit `Except` value, the
poll loop consumes an explicit list of per-iteration probe results, and wall
clock time is an explicit `Nat` accumulator advanced by declared latencies.
A run of the wait loop that consumes more iterations than its supplied script
yields `none` (the model simply does not say what happens beyond the script);
every theorem about loop results is therefore conditioned on the loop
producing a value.
-/

namespace HFSpaceHelper

/-! ### Python-semantics helpers

`py_or_str v d` models the Python expression `v or d` where `v` is an
`Optional[str]` (falsy when `None` or the empty string).  `py_str_or a b`
models `a or b` for plain strings.  `opt_truthy` models `bool(v)` for an
`Optional[str]`.  `str_contains hay needle` models `needle in hay`.
String case mapping is modelled character-wise with `Char.toUpper` /
`Char.toLower` (ASCII letters only, which covers every string the program
compares), avoiding the well-founded `String` primitives so that all
definitions reduce in the kernel. -/

def py_or_str (v : Option String) (d : String) : String :=
  match v with
  | none => d
  | some s => if s = "" then d else s

def py_str_or (a b : String) : String :=
  if a = "" then b else a

def opt_truthy : Option String → Bool
  | none => false
  | some s => !(s == "")

/-- `chars_contain hay needle` is true when `needle` occurs as a contiguous
sublist of `hay` (true for the empty needle, matching Python's `in`). -/
def chars_contain (needle : List Char) : List Char → Bool
  | [] => needle.isEmpty
  | x :: rest => needle.isPrefixOf (x :: rest) || chars_contain needle rest

def str_contains (hay needle : String) : Bool :=
  chars_contain needle.toList hay.toList

def str_lower (s : String) : String :=
  String.mk (s.toList.map Char.toLower)

def str_upper (s : String) : String :=
  String.mk (s.toList.map Char.toUpper)

def py_strip (s : String) : String :=
  String.mk (((s.toList.dropWhile Char.isWhitespace).reverse.dropWhile
    Char.isWhitespace).reverse)

/-- `split_on_char c l` splits `l` at every occurrence of `c`
(the groups do not contain `c`), like Python's `str.split`. -/
def split_on_char (c : Char) : List Char → List (List Char)
  | [] => [[]]
  | x :: xs =>
    let groups := split_on_char c xs
    if x = c then [] :: groups
    else
      match groups with
      | [] => [[x]]
      | g :: gs => (x :: g) :: gs

def py_split (sep : Char) (s : String) : List String :=
  (split_on_char sep s.toList).map String.mk

/-! ### Integer parsing (model of Python's `int(str)`)

Accepts surrounding whitespace, an optional sign, and a non-empty digit
string in which single underscores may separate digits (ASCII digits only;
`int("")` and any other shape raise, modelled as `none`). -/

def is_ascii_digit (c : Char) : Bool :=
  decide ('0' ≤ c) && decide (c ≤ '9')

def py_digit_tail : List Char → Bool
  | [] => true
  | '_' :: c :: rest => is_ascii_digit c && py_digit_tail rest
  | '_' :: [] => false
  | c :: rest => is_ascii_digit c && py_digit_tail rest

def py_digits_ok : List Char → Bool
  | [] => false
  | c :: rest => is_ascii_digit c && py_digit_tail rest

def digits_val (l : List Char) : Int :=
  l.foldl (fun a c => a * 10 + ((c.toNat - 48 : Nat) : Int)) 0

def py_parse_int (s : String) : Option Int :=
  match (py_strip s).toList with
  | '+' :: rest =>
    if py_digits_ok rest then some (digits_val (rest.filter (fun c => c ≠ '_')))
    else none
  | '-' :: rest =>
    if py_digits_ok rest then some (-(digits_val (rest.filter (fun c => c ≠ '_'))))
    else none
  | rest =>
    if py_digits_ok rest then some (digits_val (rest.filter (fun c => c ≠ '_')))
    else none

/-! ### Configuration access (`env_str`, `env_int`, run.py lines 51-63)

The process environment is supplied explicitly: `envVal` is `some v` when
the variable is set to `v` and `none` when it is unset. -/

def env_str (envVal : Option String) (default : Option String) : Option String :=
  let v := match envVal with
    | some s => some s
    | none => default
  match v with
  | none => none
  | some s => if py_strip s = "" then default else some (py_strip s)

/-- `env_int` (run.py lines 59-63): `int(os.environ.get(name, str(default)))`
with any parse failure caught and replaced by the default. -/
def env_int (envVal : Option String) (default : Int) : Int :=
  match py_parse_int (match envVal with | some s => s | none => toString default) with
  | some n => n
  | none => default

/-! ### Module constants (run.py lines 25-46) -/

def WAKING_UP_KEYWORDS : List String :=
  ["waking up",
   "is waking up",
   "space is loading",
   "loading space",
   "container is starting",
   "building",
   "launching",
   "runtime is starting",
   "runtime starting",
   "starting"]

def ERROR_PAGE_KEYWORDS : List String :=
  ["application error",
   "runtime error",
   "traceback (most recent call last)",
   "build failed",
   "build error",
   "error id:",
   "internal server error"]

/-! ### Signal collector (run.py lines 107-132)

`read_runtime` receives the result of the GET against the runtime endpoint:
`.error msg` when the request (or JSON decoding) raised, `.ok (status, d)`
with `d = none` when the body failed to decode as JSON and
`d = some data` otherwise.  `ping_space` receives the result of the GET
against the space page.  Elapsed-time outputs (pure clock readings) are not
modelled; the wall clock is explicit in the wait loop instead. -/

structure RuntimeData where
  stage : Option String
  statusField : Option String
deriving DecidableEq

/-- `str(data.get("stage") or data.get("status") or "").upper()` (line 116). -/
def data_stage (d : RuntimeData) : String :=
  str_upper (py_or_str d.stage (py_or_str d.statusField ""))

def read_runtime (resp : Except String (Int × Option RuntimeData)) :
    Option String × Option RuntimeData :=
  match resp with
  | .error _ => (none, none)
  | .ok (status, jsonData) =>
    if status ≥ 400 then (none, none)
    else
      match jsonData with
      | none => (none, none)
      | some d => (some (data_stage d), some d)

def ping_space (resp : Except String (Int × Option String)) : Int × String :=
  match resp with
  | .ok r => (r.1, py_or_str r.2 "")
  | .error e => (599, e)

/-! ### State classifier (run.py lines 135-162) -/

def classify_from_html (status_code : Int) (html : String) : String :=
  if status_code ≥ 500 then "ERROR"
  else
    let low := str_lower html
    if ERROR_PAGE_KEYWORDS.any (fun k => str_contains low k) then "ERROR"
    else if WAKING_UP_KEYWORDS.any (fun k => str_contains low k) then "WAKING_UP"
    else if 200 ≤ status_code ∧ status_code < 300 then "RUNNING"
    else if status_code ≥ 400 then "ERROR"
    else "UNKNOWN"

def normalize_stage : Option String → Option String
  | none => none
  | some stage =>
    if stage = "" then none
    else
      let s := str_upper stage
      if s = "RUNNING" ∨ s = "RUNNING_BUILDING" then some "RUNNING"
      else if s = "BUILDING" ∨ s = "STARTING" ∨ s = "RUNTIME_STARTING" then some "WAKING_UP"
      else if s = "SLEEPING" ∨ s = "STOPPED" then some "SLEEPING"
      else if str_contains s "ERROR" = true ∨ str_contains s "FAIL" = true then some "ERROR"
      else some s

/-- The idiom `normalize_stage(stage) if stage else None` applied to the first
component of a `read_runtime` result (run.py lines 176 and 317-318). -/
def norm_of_runtime (resp : Except String (Int × Option RuntimeData)) : Option String :=
  let stage := (read_runtime resp).1
  if opt_truthy stage then normalize_stage stage else none

/-! ### Recovery controller (run.py lines 165-199)

One `Step` supplies what the world does during one iteration of the poll
loop: the runtime-endpoint result, the page-probe result, and the wall-clock
time (`dt1`) consumed between the loop head and the deadline check plus the
time (`dt2`) consumed by the page probe.  The `poll`-second sleep is added
explicitly, exactly as in the source.  The loop recurses along the supplied
script; `none` means the script was too short for this run. -/

structure Step where
  runtime : Except String (Int × Option RuntimeData)
  dt1 : Nat
  ping : Except String (Int × Option String)
  dt2 : Nat

def wait_until_running (max_wait : Int) (poll : Nat) :
    List Step → Nat → String → Option (String × Nat)
  | [], _, _ => none
  | st :: rest, elapsed, last_state =>
    let norm := norm_of_runtime st.runtime
    let e1 := elapsed + st.dt1
    if norm = some "RUNNING" then some ("RUNNING", e1)
    else if norm = some "ERROR" then some ("ERROR", e1)
    else if (e1 : Int) > max_wait then
      some ((if last_state ≠ "UNKNOWN" then last_state else py_or_str norm "TIMEOUT"), e1)
    else
      let pr := ping_space st.ping
      wait_until_running max_wait poll rest (e1 + st.dt2 + poll)
        (classify_from_html pr.1 pr.2)

/-- `restart_space` (run.py lines 188-199).  `restartResp` is the result of
the restart POST (`.error` when the request raised); on acceptance the wait
loop is entered with `max_wait := wait_after` and `poll := 15`.  The returned
string is the failure message or the final state; the source's elapsed-time
output is dropped (no claim mentions it). -/
def restart_space (restartResp : Except String Int) (script : List Step)
    (wait_after : Int) : Option (Bool × String) :=
  match restartResp with
  | .error e => some (false, "restart exception: " ++ e)
  | .ok code =>
    if code ≥ 400 then some (false, "restart http " ++ toString code)
    else
      (wait_until_running wait_after 15 script 0 "UNKNOWN").map
        (fun sd => (sd.1 == "RUNNING", sd.1))

/-! ### Target orchestrator (run.py lines 283-442) -/

structure Outcome where
  space : String
  action : String
  state : String
  success : Bool
  note : String
deriving DecidableEq

/-- The world's behaviour for one target: the initial page probe and runtime
query (lines 316-317), the script for a possible keep-alive wait loop, the
restart POST result and the script for the wait loop inside a possible
rebuild, and the total wall-clock time `dt` this target consumes (probe
latencies, waits and pacing sleep lumped together, feeding the global
deadline check). -/
structure SpaceRun where
  ping0 : Except String (Int × Option String)
  runtime0 : Except String (Int × Option RuntimeData)
  keepaliveScript : List Step
  restartResp : Except String Int
  restartScript : List Step
  dt : Nat

def missing_token_outcome (sp : String) : Outcome :=
  ⟨sp, "重建", "ERROR", false, "缺少 HF_TOKEN，无法重建"⟩

def skip_outcome (sp : String) : Outcome :=
  ⟨sp, "跳过", "TIMEOUT", false, "全局超时"⟩

/-- The rebuild sub-action shared by the three recovery branches of `main`
(lines 346, 377, 406): call `restart_space` with
`wait_after = max(480, wakeup_wait_seconds)` and record one 重建 (rebuild)
outcome whose success flag is the restart result; the returned `Bool` is the
run-failure contribution (`not ok`) and the `(space, wait_after)` pair records
that one restart command was issued with that wait ceiling. -/
def do_rebuild (sp : String) (wws : Int) (run : SpaceRun) :
    Option (List Outcome × Bool × List (String × Int)) :=
  (restart_space run.restartResp run.restartScript (max 480 wws)).map
    (fun r => ([⟨sp, "重建", r.2, r.1, ""⟩], !r.1, [(sp, max 480 wws)]))

/-- One iteration of the per-target loop body of `main` (lines 315-431,
excluding the global-deadline skip, which lives in `run_spaces`).  Returns
the outcomes recorded for this target, its contribution to `any_failure`,
and the restart commands issued. -/
def process_space (hf_token : Option String) (wws : Int) (sp : String)
    (run : SpaceRun) : Option (List Outcome × Bool × List (String × Int)) :=
  let pr := ping_space run.ping0
  let norm_stage := norm_of_runtime run.runtime0
  if norm_stage = some "RUNNING" then
    some ([⟨sp, "检查", "RUNNING", true, ""⟩], false, [])
  else if norm_stage = some "ERROR" then
    if opt_truthy hf_token = false then
      some ([missing_token_outcome sp], true, [])
    else
      do_rebuild sp wws run
  else
    let cls := classify_from_html pr.1 pr.2
    if cls = "RUNNING" ∨ cls = "WAKING_UP" then
      (wait_until_running wws 10 run.keepaliveScript 0 "UNKNOWN").bind
        (fun fsdt =>
          let final_state := fsdt.1
          let state_out :=
            if final_state = "RUNNING" ∨ final_state = "ERROR" then final_state
            else "WAKING_UP"
          let o1 : Outcome := ⟨sp, "保活", state_out, state_out != "ERROR", ""⟩
          if o1.success then some ([o1], false, [])
          else if opt_truthy hf_token = true then
            (do_rebuild sp wws run).map (fun r => (o1 :: r.1, r.2.1, r.2.2))
          else some ([o1], true, []))
    else if cls = "ERROR" then
      if opt_truthy hf_token = false then
        some ([missing_token_outcome sp], true, [])
      else
        do_rebuild sp wws run
    else
      some ([⟨sp, "检查", py_or_str norm_stage (py_str_or cls "UNKNOWN"),
             cls == "RUNNING", ""⟩], false, [])

/-- The loop over the target list (lines 302-431): at the head of each
iteration the global deadline is checked against the accumulated wall clock
`t`; a skipped target records a 跳过 (skip) outcome, sets the failure flag and
consumes no time; a processed target accumulates its outcomes, failure
contribution and restart commands and advances the clock by its duration plus
the inter-target pacing sleep. -/
def run_spaces (hf_token : Option String) (gts wws brs : Int)
    (runs : Nat → SpaceRun) :
    List String → Nat → Nat → Option (List Outcome × Bool × List (String × Int))
  | [], _, _ => some ([], false, [])
  | sp :: rest, i, t =>
    if (t : Int) > gts then
      (run_spaces hf_token gts wws brs runs rest (i + 1) t).map
        (fun r => (skip_outcome sp :: r.1, true, r.2.2))
    else
      (process_space hf_token wws sp (runs i)).bind
        (fun r1 =>
          (run_spaces hf_token gts wws brs runs rest (i + 1)
              (t + (runs i).dt + brs.toNat)).map
            (fun r2 => (r1.1 ++ r2.1, r1.2.1 || r2.2.1, r1.2.2 ++ r2.2.2)))

/-- `spaces = [s.strip() for s in space_list_str.split(",") if s.strip()]`
(line 295). -/
def parse_spaces (space_list_str : String) : List String :=
  ((py_split ',' space_list_str).map py_strip).filter (fun s => s ≠ "")

/-- The six environment variables `main` reads (lines 284-289). `none` means
the variable is unset. -/
structure EnvInput where
  hf_token : Option String
  username : Option String
  space_list : Option String
  global_timeout : Option String
  wakeup_wait : Option String
  between_requests : Option String

/-- `main` (run.py lines 283-442).  `runs i` supplies the world's behaviour
for the `i`-th target.  Result: the recorded outcome sequence, the
`any_failure` flag, the process exit code, and the list of restart commands
issued (each with the wait ceiling passed to `restart_space`).  The report /
README writing (lines 433-437) is pure output and is not modelled. -/
def main (env : EnvInput) (runs : Nat → SpaceRun) :
    Option (List Outcome × Bool × Nat × List (String × Int)) :=
  let hf_token := env_str env.hf_token none
  let username := env_str env.username none
  let space_list_str := env_str env.space_list (some "")
  let gts := env_int env.global_timeout 1800
  let wws := env_int env.wakeup_wait 240
  let brs := env_int env.between_requests 5
  if opt_truthy username = false ∨ opt_truthy space_list_str = false then
    some ([], false, 2, [])
  else
    (run_spaces hf_token gts wws brs runs
        (parse_spaces (space_list_str.getD "")) 0 0).map
      (fun r => (r.1, r.2.1, if r.2.1 then 1 else 0, r.2.2))

/-! ### Helper lemmas about the orchestrator -/

theorem do_rebuild_cases (sp : String) (wws : Int) (run : SpaceRun)
    (os : List Outcome) (f : Bool) (cs : List (String × Int))
    (h : do_rebuild sp wws run = some (os, f, cs)) :
    (f = true → ∃ o ∈ os, o.success = false) ∧
    (∀ c ∈ cs, c.2 = max 480 wws) := by
  unfold do_rebuild at h
  rw [Option.map_eq_some'] at h
  obtain ⟨⟨ok, fs⟩, _, hEq⟩ := h
  simp only [Prod.mk.injEq] at hEq
  obtain ⟨hos, hf, hcs⟩ := hEq
  subst hos; subst hf; subst hcs
  constructor
  · intro hfail
    refine ⟨⟨sp, "重建", fs, ok, ""⟩, by simp, ?_⟩
    simpa using hfail
  · intro c hc
    simp only [List.mem_singleton] at hc
    subst hc
    rfl

theorem process_space_cases (tk : Option String) (wws : Int) (sp : String)
    (run : SpaceRun) (os : List Outcome) (f : Bool) (cs : List (String × Int))
    (h : process_space tk wws sp run = some (os, f, cs)) :
    (f = true → ∃ o ∈ os, o.success = false) ∧
    (∀ c ∈ cs, c.2 = max 480 wws) ∧
    (opt_truthy tk = false → cs = []) := by
  simp only [process_space] at h
  by_cases h1 : norm_of_runtime run.runtime0 = some "RUNNING"
  · rw [if_pos h1] at h
    simp only [Option.some.injEq, Prod.mk.injEq] at h
    obtain ⟨hos, hf, hcs⟩ := h
    subst hos; subst hf; subst hcs
    exact ⟨by simp, by simp, fun _ => rfl⟩
  · rw [if_neg h1] at h
    by_cases h2 : norm_of_runtime run.runtime0 = some "ERROR"
    · rw [if_pos h2] at h
      by_cases h3 : opt_truthy tk = false
      · rw [if_pos h3] at h
        simp only [Option.some.injEq, Prod.mk.injEq] at h
        obtain ⟨hos, hf, hcs⟩ := h
        subst hos; subst hf; subst hcs
        exact ⟨fun _ => ⟨missing_token_outcome sp, by simp, rfl⟩, by simp,
          fun _ => rfl⟩
      · rw [if_neg h3] at h
        have hd := do_rebuild_cases sp wws run os f cs h
        exact ⟨hd.1, hd.2, fun hfalse => absurd hfalse h3⟩
    · rw [if_neg h2] at h
      by_cases h4 :
          classify_from_html (ping_space run.ping0).1 (ping_space run.ping0).2
              = "RUNNING" ∨
            classify_from_html (ping_space run.ping0).1 (ping_space run.ping0).2
              = "WAKING_UP"
      · rw [if_pos h4] at h
        rw [Option.bind_eq_some] at h
        obtain ⟨⟨final_state, dtw⟩, _, h⟩ := h
        dsimp only at h
        by_cases h5 :
            ((if final_state = "RUNNING" ∨ final_state = "ERROR" then final_state
              else "WAKING_UP") != "ERROR") = true
        · rw [if_pos h5] at h
          simp only [Option.some.injEq, Prod.mk.injEq] at h
          obtain ⟨hos, hf, hcs⟩ := h
          subst hos; subst hf; subst hcs
          exact ⟨by simp, by simp, fun _ => rfl⟩
        · rw [if_neg h5] at h
          by_cases h6 : opt_truthy tk = true
          · rw [if_pos h6] at h
            rw [Option.map_eq_some'] at h
            obtain ⟨⟨os2, f2, cs2⟩, hdr, hEq⟩ := h
            simp only [Prod.mk.injEq] at hEq
            obtain ⟨hos, hf, hcs⟩ := hEq
            subst hos; subst hf; subst hcs
            have hd := do_rebuild_cases sp wws run os2 f2 cs2 hdr
            refine ⟨?_, hd.2, ?_⟩
            · intro hfail
              obtain ⟨o, ho, hos⟩ := hd.1 hfail
              exact ⟨o, List.mem_cons_of_mem _ ho, hos⟩
            · intro hfalse
              rw [hfalse] at h6
              exact absurd h6 (by simp)
          · rw [if_neg h6] at h
            simp only [Option.some.injEq, Prod.mk.injEq] at h
            obtain ⟨hos, hf, hcs⟩ := h
            subst hos; subst hf; subst hcs
            refine ⟨?_, by simp, fun _ => rfl⟩
            intro _
            refine ⟨_, List.mem_singleton_self _, ?_⟩
            exact Bool.eq_false_iff.mpr (fun hx => h5 hx)
      · rw [if_neg h4] at h
        by_cases h7 :
            classify_from_html (ping_space run.ping0).1 (ping_space run.ping0).2
              = "ERROR"
        · rw [if_pos h7] at h
          by_cases h8 : opt_truthy tk = false
          · rw [if_pos h8] at h
            simp only [Option.some.injEq, Prod.mk.injEq] at h
            obtain ⟨hos, hf, hcs⟩ := h
            subst hos; subst hf; subst hcs
            exact ⟨fun _ => ⟨missing_token_outcome sp, by simp, rfl⟩, by simp,
              fun _ => rfl⟩
          · rw [if_neg h8] at h
            have hd := do_rebuild_cases sp wws run os f cs h
            exact ⟨hd.1, hd.2, fun hfalse => absurd hfalse h8⟩
        · rw [if_neg h7] at h
          simp only [Option.some.injEq, Prod.mk.injEq] at h
          obtain ⟨hos, hf, hcs⟩ := h
          subst hos; subst hf; subst hcs
          exact ⟨by simp, by simp, fun _ => rfl⟩

theorem run_spaces_cases (tk : Option String) (gts wws brs : Int)
    (runs : Nat → SpaceRun) :
    ∀ (sps : List String) (i t : Nat) (os : List Outcome) (af : Bool)
      (cs : List (String × Int)),
      run_spaces tk gts wws brs runs sps i t = some (os, af, cs) →
      (af = true → ∃ o ∈ os, o.success = false) ∧
      (∀ c ∈ cs, c.2 = max 480 wws) ∧
      (opt_truthy tk = false → cs = []) := by
  intro sps
  induction sps with
  | nil =>
    intro i t os af cs h
    simp only [run_spaces, Option.some.injEq, Prod.mk.injEq] at h
    obtain ⟨hos, hf, hcs⟩ := h
    subst hos; subst hf; subst hcs
    exact ⟨by simp, by simp, fun _ => rfl⟩
  | cons sp rest ih =>
    intro i t os af cs h
    rw [run_spaces] at h
    split at h
    · -- global deadline exceeded: skip
      rw [Option.map_eq_some'] at h
      obtain ⟨⟨os2, af2, cs2⟩, hr, hEq⟩ := h
      simp only [Prod.mk.injEq] at hEq
      obtain ⟨hos, hf, hcs⟩ := hEq
      subst hos; subst hf; subst hcs
      have IH := ih (i + 1) t os2 af2 cs2 hr
      exact ⟨fun _ => ⟨skip_outcome sp, by simp, rfl⟩, IH.2.1, IH.2.2⟩
    · rw [Option.bind_eq_some] at h
      obtain ⟨⟨os1, f1, cs1⟩, hp, h⟩ := h
      rw [Option.map_eq_some'] at h
      obtain ⟨⟨os2, af2, cs2⟩, hr, hEq⟩ := h
      simp only [Prod.mk.injEq] at hEq
      obtain ⟨hos, hf, hcs⟩ := hEq
      subst hos; subst hf; subst hcs
      have P := process_space_cases tk wws sp (runs i) os1 f1 cs1 hp
      have IH := ih (i + 1) (t + (runs i).dt + brs.toNat) os2 af2 cs2 hr
      refine ⟨?_, ?_, ?_⟩
      · intro hfail
        rcases Bool.or_eq_true_iff.mp hfail with h1 | h2
        · obtain ⟨o, ho, hos⟩ := P.1 h1
          exact ⟨o, List.mem_append_left _ ho, hos⟩
        · obtain ⟨o, ho, hos⟩ := IH.1 h2
          exact ⟨o, List.mem_append_right _ ho, hos⟩
      · intro c hc
        rcases List.mem_append.mp hc with h1 | h2
        · exact P.2.1 c h1
        · exact IH.2.1 c h2
      · intro hfalse
        rw [P.2.2 hfalse, IH.2.2 hfalse]
        rfl

/-! ### Claim C4 -/

/-- Spec-side classifier, written from the specification's words (§4.2):
status ≥500 → ERROR; else case-insensitive substring match against the fixed
error-page keyword set → ERROR; else substring match against the fixed
waking-up keyword set → WAKING_UP; else 200-299 → RUNNING; else ≥400 →
ERROR; otherwise UNKNOWN.  The keyword sets are part of the design contract
and reproduced verbatim (all-lowercase), the case-insensitive match lowering
the body before the scan. -/
def classifySpec (statusCode : Int) (body : String) : String :=
  if 500 ≤ statusCode then "ERROR"
  else if ERROR_PAGE_KEYWORDS.any (fun k => str_contains (str_lower body) k)
    then "ERROR"
  else if WAKING_UP_KEYWORDS.any (fun k => str_contains (str_lower body) k)
    then "WAKING_UP"
  else if 200 ≤ statusCode ∧ statusCode < 300 then "RUNNING"
  else if 400 ≤ statusCode then "ERROR"
  else "UNKNOWN"

/-- C4: `classify_from_html` implements exactly the spec's total case
analysis, in the spec's precedence order, for every status code and body:
status ≥500 → ERROR regardless of body; else error-page keyword (case
insensitive) → ERROR; else waking-up keyword → WAKING_UP; else
200 ≤ status < 300 → RUNNING; else status ≥400 → ERROR; else UNKNOWN. -/
theorem c4_classify_matches_spec :
    ∀ (statusCode : Int) (body : String),
      classify_from_html statusCode body = classifySpec statusCode body :=
  fun _ _ => rfl

/-! ### Claim C7 -/

/-- C7: both collector operations are total toward their caller: a transport
failure makes `read_runtime` return an absent stage (never raising) and makes
`ping_space` return the reserved status code 599 with the error text as the
body; a structured-probe response with status ≥ 400 likewise yields an absent
stage. -/
theorem c7_collector_total :
    (∀ msg : String, read_runtime (.error msg) = (none, none)) ∧
    (∀ msg : String, ping_space (.error msg) = (599, msg)) ∧
    (∀ (status : Int) (d : Option RuntimeData),
      status ≥ 400 → read_runtime (.ok (status, d)) = (none, none)) := by
  refine ⟨fun _ => rfl, fun _ => rfl, ?_⟩
  intro status d hge
  simp only [read_runtime, if_pos hge]

theorem c7_collector_total_witness :
    read_runtime (.ok (404, none)) = (none, none) :=
  c7_collector_total.2.2 404 none (by decide)

/-! ### Claim C8 -/

/-- C8 counterexample: the unrecognized token `"paused"` contains no
error/failure marker and is in no recognized token table, yet
`normalize_stage` returns it UPPERCASED, not unchanged: the returned string
differs from the input string. -/
theorem c8_counterexample :
    normalize_stage (some "paused") = some "PAUSED" ∧
    str_contains (str_upper "paused") "ERROR" = false ∧
    str_contains (str_upper "paused") "FAIL" = false ∧
    ("PAUSED" : String) ≠ "paused" :=
  ⟨rfl, rfl, rfl, by decide⟩

/-- C8 (amended): `normalize_stage` passes every unrecognized non-empty token
through UPPERCASED — the returned string is the uppercased input (hence equal
to the input exactly when the input is already upper case, as it always is at
the call sites, `read_runtime` having uppercased the raw stage) — and returns
absence (`none`, not UNKNOWN) for empty or absent input. -/
theorem c8_normalize_passthrough_amended :
    (∀ s : String, s ≠ "" →
      str_upper s ≠ "RUNNING" → str_upper s ≠ "RUNNING_BUILDING" →
      str_upper s ≠ "BUILDING" → str_upper s ≠ "STARTING" →
      str_upper s ≠ "RUNTIME_STARTING" →
      str_upper s ≠ "SLEEPING" → str_upper s ≠ "STOPPED" →
      str_contains (str_upper s) "ERROR" = false →
      str_contains (str_upper s) "FAIL" = false →
      normalize_stage (some s) = some (str_upper s)) ∧
    normalize_stage none = none ∧ normalize_stage (some "") = none := by
  refine ⟨?_, rfl, rfl⟩
  intro s hne hr1 hr2 hw1 hw2 hw3 hs1 hs2 herr hfail
  simp only [normalize_stage, if_neg hne]
  rw [if_neg (by simp [hr1, hr2]), if_neg (by simp [hw1, hw2, hw3]),
    if_neg (by simp [hs1, hs2]), if_neg (by simp [herr, hfail])]

theorem c8_normalize_passthrough_witness :
    normalize_stage (some "zz") = some (str_upper "zz") :=
  c8_normalize_passthrough_amended.1 "zz" (by decide) (by decide) (by decide)
    (by decide) (by decide) (by decide) (by decide) (by decide) (by decide)
    (by decide)

/-! ### Claim C9 -/

/-- The stage tokens the classifier recognizes: the three lookup tables of
`normalize_stage` plus representative tokens carrying an error/failure
marker. -/
def knownStageTokens : List String :=
  ["RUNNING", "RUNNING_BUILDING", "BUILDING", "STARTING", "RUNTIME_STARTING",
   "SLEEPING", "STOPPED", "RUNTIME_ERROR", "BUILD_FAILED", "ERROR", "FAILED"]

/-- C9: `normalize_stage` is idempotent on every known stage token:
normalizing a normalized value changes nothing. -/
theorem c9_normalize_idempotent :
    ∀ x ∈ knownStageTokens,
      normalize_stage (normalize_stage (some x)) = normalize_stage (some x) := by
  decide

theorem c9_normalize_idempotent_witness :
    normalize_stage (normalize_stage (some "STOPPED"))
      = normalize_stage (some "STOPPED") :=
  c9_normalize_idempotent "STOPPED" (by decide)

/-! ### Claim C2 -/

def canonicalStates : List String :=
  ["RUNNING", "WAKING_UP", "SLEEPING", "ERROR", "UNKNOWN", "TIMEOUT"]

/-- The exact shapes a recorded Outcome's state field can take: a canonical
liveness value, an uppercased raw structured-stage token (the pass-through of
`normalize_stage`), or one of the two restart failure messages that
`restart_space` returns in place of a state (run.py lines 194 and 196) and
that `main` stores into the rebuild Outcome's state field (lines 350, 381,
410). -/
def outcome_state_ok (s : String) : Prop :=
  s ∈ canonicalStates ∨ (∃ t, s = str_upper t) ∨
  (∃ e, s = "restart exception: " ++ e) ∨
  (∃ code : Int, s = "restart http " ++ toString code)

theorem classify_canonical (status : Int) (body : String) :
    classify_from_html status body ∈ canonicalStates := by
  simp only [classify_from_html]
  split_ifs <;> decide

theorem normalize_stage_cases (s : String) :
    normalize_stage (some s) = none ∨
    normalize_stage (some s) = some "RUNNING" ∨
    normalize_stage (some s) = some "WAKING_UP" ∨
    normalize_stage (some s) = some "SLEEPING" ∨
    normalize_stage (some s) = some "ERROR" ∨
    normalize_stage (some s) = some (str_upper s) := by
  by_cases hs : s = ""
  · simp [normalize_stage, hs]
  · simp only [normalize_stage, if_neg hs]
    split_ifs <;> simp

theorem norm_of_runtime_cases (resp : Except String (Int × Option RuntimeData)) :
    norm_of_runtime resp = none ∨
    norm_of_runtime resp = some "RUNNING" ∨
    norm_of_runtime resp = some "WAKING_UP" ∨
    norm_of_runtime resp = some "SLEEPING" ∨
    norm_of_runtime resp = some "ERROR" ∨
    ∃ t, norm_of_runtime resp = some (str_upper t) := by
  simp only [norm_of_runtime]
  cases hst : (read_runtime resp).1 with
  | none => simp [opt_truthy]
  | some s =>
    by_cases hs : s = ""
    · simp [opt_truthy, hs]
    · have ht : opt_truthy (some s) = true := by simp [opt_truthy, hs]
      rw [if_pos ht]
      rcases normalize_stage_cases s with h | h | h | h | h | h
      all_goals rw [h]
      · simp
      · simp
      · simp
      · simp
      · simp
      · exact Or.inr <| Or.inr <| Or.inr <| Or.inr <| Or.inr ⟨s, rfl⟩

/-- Every state the wait loop returns is canonical or an uppercased raw
stage token, provided the provisional state it starts from is canonical
(every call site starts from "UNKNOWN"). -/
theorem wait_state_cases (mw : Int) (poll : Nat) :
    ∀ (script : List Step) (e : Nat) (ls st : String) (d : Nat),
      ls ∈ canonicalStates →
      wait_until_running mw poll script e ls = some (st, d) →
      st ∈ canonicalStates ∨ ∃ t, st = str_upper t := by
  intro script
  induction script with
  | nil =>
    intro e ls st d _ h
    exact absurd h (by simp [wait_until_running])
  | cons hd tl ih =>
    intro e ls st d hls h
    simp only [wait_until_running] at h
    by_cases h1 : norm_of_runtime hd.runtime = some "RUNNING"
    · rw [if_pos h1] at h
      simp only [Option.some.injEq, Prod.mk.injEq] at h
      rw [← h.1]
      exact Or.inl (by decide)
    · rw [if_neg h1] at h
      by_cases h2 : norm_of_runtime hd.runtime = some "ERROR"
      · rw [if_pos h2] at h
        simp only [Option.some.injEq, Prod.mk.injEq] at h
        rw [← h.1]
        exact Or.inl (by decide)
      · rw [if_neg h2] at h
        by_cases h3 : ((e + hd.dt1 : Nat) : Int) > mw
        · rw [if_pos h3] at h
          simp only [Option.some.injEq, Prod.mk.injEq] at h
          rw [← h.1]
          by_cases h4 : ls ≠ "UNKNOWN"
          · rw [if_pos h4]
            exact Or.inl hls
          · rw [if_neg h4]
            rcases norm_of_runtime_cases hd.runtime with h5 | h5 | h5 | h5 | h5 | ⟨t, h5⟩
            · rw [h5]
              exact Or.inl (by decide)
            · rw [h5]
              exact Or.inl (by decide)
            · rw [h5]
              exact Or.inl (by decide)
            · rw [h5]
              exact Or.inl (by decide)
            · rw [h5]
              exact Or.inl (by decide)
            · rw [h5]
              simp only [py_or_str]
              by_cases h6 : str_upper t = ""
              · rw [if_pos h6]
                exact Or.inl (by decide)
              · rw [if_neg h6]
                exact Or.inr ⟨t, rfl⟩
        · rw [if_neg h3] at h
          exact ih _ _ st d (classify_canonical _ _) h

theorem restart_state_cases (resp : Except String Int) (script : List Step)
    (wa : Int) (ok : Bool) (st : String)
    (h : restart_space resp script wa = some (ok, st)) :
    outcome_state_ok st := by
  unfold restart_space at h
  split at h
  · rename_i e
    simp only [Option.some.injEq, Prod.mk.injEq] at h
    rw [← h.2]
    exact Or.inr (Or.inr (Or.inl ⟨e, rfl⟩))
  · rename_i code
    by_cases hc : code ≥ 400
    · rw [if_pos hc] at h
      simp only [Option.some.injEq, Prod.mk.injEq] at h
      rw [← h.2]
      exact Or.inr (Or.inr (Or.inr ⟨code, rfl⟩))
    · rw [if_neg hc] at h
      rw [Option.map_eq_some'] at h
      obtain ⟨⟨ws, wd⟩, hw, hEq⟩ := h
      simp only [Prod.mk.injEq] at hEq
      rw [← hEq.2]
      rcases wait_state_cases wa 15 script 0 "UNKNOWN" ws wd (by decide) hw with hok | hok
      · exact Or.inl hok
      · exact Or.inr (Or.inl hok)

theorem do_rebuild_state (sp : String) (wws : Int) (run : SpaceRun)
    (os : List Outcome) (f : Bool) (cs : List (String × Int))
    (h : do_rebuild sp wws run = some (os, f, cs)) :
    ∀ o ∈ os, outcome_state_ok o.state := by
  unfold do_rebuild at h
  rw [Option.map_eq_some'] at h
  obtain ⟨⟨ok, fs⟩, hr, hEq⟩ := h
  simp only [Prod.mk.injEq] at hEq
  obtain ⟨hos, _, _⟩ := hEq
  subst hos
  intro o ho
  simp only [List.mem_singleton] at ho
  subst ho
  exact restart_state_cases run.restartResp run.restartScript (max 480 wws) ok fs hr

theorem process_space_states (tk : Option String) (wws : Int) (sp : String)
    (run : SpaceRun) (os : List Outcome) (f : Bool) (cs : List (String × Int))
    (h : process_space tk wws sp run = some (os, f, cs)) :
    ∀ o ∈ os, outcome_state_ok o.state := by
  simp only [process_space] at h
  by_cases h1 : norm_of_runtime run.runtime0 = some "RUNNING"
  · rw [if_pos h1] at h
    simp only [Option.some.injEq, Prod.mk.injEq] at h
    obtain ⟨hos, _, _⟩ := h
    subst hos
    intro o ho
    simp only [List.mem_singleton] at ho
    subst ho
    exact Or.inl (show "RUNNING" ∈ canonicalStates by decide)
  · rw [if_neg h1] at h
    by_cases h2 : norm_of_runtime run.runtime0 = some "ERROR"
    · rw [if_pos h2] at h
      by_cases h3 : opt_truthy tk = false
      · rw [if_pos h3] at h
        simp only [Option.some.injEq, Prod.mk.injEq] at h
        obtain ⟨hos, _, _⟩ := h
        subst hos
        intro o ho
        simp only [List.mem_singleton] at ho
        subst ho
        exact Or.inl (show "ERROR" ∈ canonicalStates by decide)
      · rw [if_neg h3] at h
        exact do_rebuild_state sp wws run os f cs h
    · rw [if_neg h2] at h
      by_cases h4 :
          classify_from_html (ping_space run.ping0).1 (ping_space run.ping0).2
              = "RUNNING" ∨
            classify_from_html (ping_space run.ping0).1 (ping_space run.ping0).2
              = "WAKING_UP"
      · rw [if_pos h4] at h
        rw [Option.bind_eq_some] at h
        obtain ⟨⟨final_state, dtw⟩, _, h⟩ := h
        dsimp only at h
        by_cases h5 :
            ((if final_state = "RUNNING" ∨ final_state = "ERROR" then final_state
              else "WAKING_UP") != "ERROR") = true
        · rw [if_pos h5] at h
          simp only [Option.some.injEq, Prod.mk.injEq] at h
          obtain ⟨hos, _, _⟩ := h
          subst hos
          intro o ho
          simp only [List.mem_singleton] at ho
          subst ho
          show outcome_state_ok
            (if final_state = "RUNNING" ∨ final_state = "ERROR" then final_state
             else "WAKING_UP")
          by_cases h9 : final_state = "RUNNING" ∨ final_state = "ERROR"
          · rw [if_pos h9]
            rcases h9 with h9 | h9 <;> rw [h9] <;> exact Or.inl (by decide)
          · rw [if_neg h9]
            exact Or.inl (by decide)
        · rw [if_neg h5] at h
          by_cases h6 : opt_truthy tk = true
          · rw [if_pos h6] at h
            rw [Option.map_eq_some'] at h
            obtain ⟨⟨os2, f2, cs2⟩, hdr, hEq⟩ := h
            simp only [Prod.mk.injEq] at hEq
            obtain ⟨hos, _, _⟩ := hEq
            subst hos
            intro o ho
            rcases List.mem_cons.mp ho with ho1 | ho2
            · subst ho1
              show outcome_state_ok
                (if final_state = "RUNNING" ∨ final_state = "ERROR" then final_state
                 else "WAKING_UP")
              by_cases h9 : final_state = "RUNNING" ∨ final_state = "ERROR"
              · rw [if_pos h9]
                rcases h9 with h9 | h9 <;> rw [h9] <;> exact Or.inl (by decide)
              · rw [if_neg h9]
                exact Or.inl (by decide)
            · exact do_rebuild_state sp wws run os2 f2 cs2 hdr o ho2
          · rw [if_neg h6] at h
            simp only [Option.some.injEq, Prod.mk.injEq] at h
            obtain ⟨hos, _, _⟩ := h
            subst hos
            intro o ho
            simp only [List.mem_singleton] at ho
            subst ho
            show outcome_state_ok
              (if final_state = "RUNNING" ∨ final_state = "ERROR" then final_state
               else "WAKING_UP")
            by_cases h9 : final_state = "RUNNING" ∨ final_state = "ERROR"
            · rw [if_pos h9]
              rcases h9 with h9 | h9 <;> rw [h9] <;> exact Or.inl (by decide)
            · rw [if_neg h9]
              exact Or.inl (by decide)
      · rw [if_neg h4] at h
        by_cases h7 :
            classify_from_html (ping_space run.ping0).1 (ping_space run.ping0).2
              = "ERROR"
        · rw [if_pos h7] at h
          by_cases h8 : opt_truthy tk = false
          · rw [if_pos h8] at h
            simp only [Option.some.injEq, Prod.mk.injEq] at h
            obtain ⟨hos, _, _⟩ := h
            subst hos
            intro o ho
            simp only [List.mem_singleton] at ho
            subst ho
            exact Or.inl (show "ERROR" ∈ canonicalStates by decide)
          · rw [if_neg h8] at h
            exact do_rebuild_state sp wws run os f cs h
        · rw [if_neg h7] at h
          simp only [Option.some.injEq, Prod.mk.injEq] at h
          obtain ⟨hos, _, _⟩ := h
          subst hos
          intro o ho
          simp only [List.mem_singleton] at ho
          subst ho
          show outcome_state_ok
            (py_or_str (norm_of_runtime run.runtime0)
              (py_str_or
                (classify_from_html (ping_space run.ping0).1 (ping_space run.ping0).2)
                "UNKNOWN"))
          rcases norm_of_runtime_cases run.runtime0 with h9 | h9 | h9 | h9 | h9 | ⟨t, h9⟩
          · rw [h9]
            simp only [py_or_str, py_str_or]
            by_cases h10 :
                classify_from_html (ping_space run.ping0).1 (ping_space run.ping0).2
                  = ""
            · rw [if_pos h10]
              exact Or.inl (by decide)
            · rw [if_neg h10]
              exact Or.inl (classify_canonical _ _)
          · rw [h9]
            simp only [py_or_str]
            rw [if_neg (by decide : ¬("RUNNING" : String) = "")]
            exact Or.inl (by decide)
          · rw [h9]
            simp only [py_or_str]
            rw [if_neg (by decide : ¬("WAKING_UP" : String) = "")]
            exact Or.inl (by decide)
          · rw [h9]
            simp only [py_or_str]
            rw [if_neg (by decide : ¬("SLEEPING" : String) = "")]
            exact Or.inl (by decide)
          · rw [h9]
            simp only [py_or_str]
            rw [if_neg (by decide : ¬("ERROR" : String) = "")]
            exact Or.inl (by decide)
          · rw [h9]
            simp only [py_or_str]
            by_cases h10 : str_upper t = ""
            · rw [if_pos h10]
              simp only [py_str_or]
              by_cases h11 :
                  classify_from_html (ping_space run.ping0).1 (ping_space run.ping0).2
                    = ""
              · rw [if_pos h11]
                exact Or.inl (by decide)
              · rw [if_neg h11]
                exact Or.inl (classify_canonical _ _)
            · rw [if_neg h10]
              exact Or.inr (Or.inl ⟨t, rfl⟩)

theorem run_spaces_states (tk : Option String) (gts wws brs : Int)
    (runs : Nat → SpaceRun) :
    ∀ (sps : List String) (i t : Nat) (os : List Outcome) (af : Bool)
      (cs : List (String × Int)),
      run_spaces tk gts wws brs runs sps i t = some (os, af, cs) →
      ∀ o ∈ os, outcome_state_ok o.state := by
  intro sps
  induction sps with
  | nil =>
    intro i t os af cs h
    simp only [run_spaces, Option.some.injEq, Prod.mk.injEq] at h
    obtain ⟨hos, _, _⟩ := h
    subst hos
    intro o ho
    exact absurd ho (by simp)
  | cons sp rest ih =>
    intro i t os af cs h
    rw [run_spaces] at h
    split at h
    · rw [Option.map_eq_some'] at h
      obtain ⟨⟨os2, af2, cs2⟩, hr, hEq⟩ := h
      simp only [Prod.mk.injEq] at hEq
      obtain ⟨hos, _, _⟩ := hEq
      subst hos
      intro o ho
      rcases List.mem_cons.mp ho with ho1 | ho2
      · subst ho1
        exact Or.inl (show "TIMEOUT" ∈ canonicalStates by decide)
      · exact ih (i + 1) t os2 af2 cs2 hr o ho2
    · rw [Option.bind_eq_some] at h
      obtain ⟨⟨os1, f1, cs1⟩, hp, h⟩ := h
      rw [Option.map_eq_some'] at h
      obtain ⟨⟨os2, af2, cs2⟩, hr, hEq⟩ := h
      simp only [Prod.mk.injEq] at hEq
      obtain ⟨hos, _, _⟩ := hEq
      subst hos
      intro o ho
      rcases List.mem_append.mp ho with hm1 | hm2
      · exact process_space_states tk wws sp (runs i) os1 f1 cs1 hp o hm1
      · exact ih (i + 1) (t + (runs i).dt + brs.toNat) os2 af2 cs2 hr o hm2

def c2_env : EnvInput := ⟨none, some "alice", some "s1", none, none, none⟩

/-- World for the C2 counterexample: the runtime endpoint reports the
unrecognized stage token `"PAUSED"`, the page probe returns status 350 with
an empty body (content class UNKNOWN). -/
def c2_run : SpaceRun :=
  ⟨.ok (350, some ""), .ok (200, some ⟨some "PAUSED", none⟩), [], .ok 200, [], 0⟩

/-- C2 counterexample: with stage token `"PAUSED"` the recorded Outcome's
state is `"PAUSED"`, which is not in the canonical liveness set — an
unrecognized string does escape into downstream logic (the pass-through of
`normalize_stage` reaches the Outcome via `norm_stage or cls` in `main`). -/
theorem c2_counterexample :
    main c2_env (fun _ => c2_run)
      = some ([⟨"s1", "检查", "PAUSED", false, ""⟩], false, 0, []) ∧
    "PAUSED" ∉ canonicalStates :=
  ⟨rfl, by decide⟩

/-- C2 (amended): content classification always lands in the canonical set;
`normalize_stage` returns absence, a canonical value, or the uppercased raw
token passed through unchanged; and in every completed run every state
recorded in an Outcome is a canonical value, an uppercased raw
structured-stage token (the designed pass-through), or one of the two
restart failure messages ("restart http N" / "restart exception: ...") that
`restart_space` returns in place of a state and `main` records as a rebuild
Outcome's state.  No other string can reach downstream logic. -/
theorem c2_canonical_states_amended :
    (∀ (status : Int) (body : String),
      classify_from_html status body ∈ canonicalStates) ∧
    (∀ s : String,
      normalize_stage (some s) = none ∨
      normalize_stage (some s) = some "RUNNING" ∨
      normalize_stage (some s) = some "WAKING_UP" ∨
      normalize_stage (some s) = some "SLEEPING" ∨
      normalize_stage (some s) = some "ERROR" ∨
      normalize_stage (some s) = some (str_upper s)) ∧
    normalize_stage none = none ∧
    (∀ (env : EnvInput) (runs : Nat → SpaceRun) (os : List Outcome) (af : Bool)
      (ec : Nat) (cs : List (String × Int)),
      main env runs = some (os, af, ec, cs) →
      ∀ o ∈ os, outcome_state_ok o.state) := by
  refine ⟨classify_canonical, normalize_stage_cases, rfl, ?_⟩
  intro env runs os af ec cs h
  simp only [main] at h
  split at h
  · simp only [Option.some.injEq, Prod.mk.injEq] at h
    obtain ⟨hos, _, _⟩ := h
    rw [← hos]
    intro o ho
    exact absurd ho (by simp)
  · rw [Option.map_eq_some'] at h
    obtain ⟨⟨os', af', cs'⟩, hr, hEq⟩ := h
    simp only [Prod.mk.injEq] at hEq
    obtain ⟨hos, _, _⟩ := hEq
    subst hos
    exact run_spaces_states (env_str env.hf_token none)
      (env_int env.global_timeout 1800) (env_int env.wakeup_wait 240)
      (env_int env.between_requests 5) runs
      (parse_spaces ((env_str env.space_list (some "")).getD "")) 0 0
      os' af' cs' hr

theorem c2_canonical_states_amended_witness :
    outcome_state_ok (⟨"s1", "检查", "PAUSED", false, ""⟩ : Outcome).state :=
  c2_canonical_states_amended.2.2.2 c2_env (fun _ => c2_run)
    [⟨"s1", "检查", "PAUSED", false, ""⟩] false 0 [] rfl
    ⟨"s1", "检查", "PAUSED", false, ""⟩ (List.mem_singleton_self _)

/-! ### Claim C5 -/

/-- C5 (amended): one step of `wait_until_running` behaves as follows.  When
the structured signal normalizes to RUNNING the loop returns immediately with
RUNNING; when it normalizes to ERROR it returns immediately with ERROR;
otherwise, if the deadline has not passed, it probes the content, refines the
provisional state to the content classification, adds the poll interval and
re-polls; if the deadline has passed it returns the provisional state when
that is not UNKNOWN, and otherwise the normalized structured state when
present (truthy) and TIMEOUT when not. -/
theorem c5_wait_loop_amended :
    ∀ (mw : Int) (poll : Nat) (st : Step) (rest : List Step) (e : Nat)
      (ls : String),
      (norm_of_runtime st.runtime = some "RUNNING" →
        wait_until_running mw poll (st :: rest) e ls
          = some ("RUNNING", e + st.dt1)) ∧
      (norm_of_runtime st.runtime = some "ERROR" →
        wait_until_running mw poll (st :: rest) e ls
          = some ("ERROR", e + st.dt1)) ∧
      (norm_of_runtime st.runtime ≠ some "RUNNING" →
        norm_of_runtime st.runtime ≠ some "ERROR" →
        ((e + st.dt1 : Nat) : Int) ≤ mw →
        wait_until_running mw poll (st :: rest) e ls =
          wait_until_running mw poll rest (e + st.dt1 + st.dt2 + poll)
            (classify_from_html (ping_space st.ping).1 (ping_space st.ping).2)) ∧
      (norm_of_runtime st.runtime ≠ some "RUNNING" →
        norm_of_runtime st.runtime ≠ some "ERROR" →
        ((e + st.dt1 : Nat) : Int) > mw →
        wait_until_running mw poll (st :: rest) e ls =
          some ((if ls ≠ "UNKNOWN" then ls
                 else py_or_str (norm_of_runtime st.runtime) "TIMEOUT"),
                e + st.dt1)) := by
  intro mw poll st rest e ls
  refine ⟨?_, ?_, ?_, ?_⟩
  · intro h
    simp only [wait_until_running]
    rw [if_pos h]
  · intro h
    simp only [wait_until_running]
    rw [if_neg (by rw [h]; decide), if_pos h]
  · intro h1 h2 hle
    simp only [wait_until_running]
    rw [if_neg h1, if_neg h2, if_neg (not_lt.mpr hle)]
  · intro h1 h2 hgt
    simp only [wait_until_running]
    rw [if_neg h1, if_neg h2, if_pos hgt]

def c5w_step : Step :=
  ⟨.ok (200, some ⟨some "RUNNING", none⟩), 3, .ok (200, some ""), 0⟩

theorem c5_wait_loop_amended_witness :
    wait_until_running 100 10 [c5w_step] 0 "UNKNOWN" = some ("RUNNING", 3) :=
  (c5_wait_loop_amended 100 10 c5w_step [] 0 "UNKNOWN").1 rfl

def c5x1 : Step :=
  ⟨.ok (200, some ⟨some "PAUSED", none⟩), 0, .ok (350, some ""), 0⟩

def c5x2 : Step :=
  ⟨.ok (200, some ⟨some "PAUSED", none⟩), 0, .ok (200, some ""), 0⟩

/-- C5 counterexample: in the first iteration the content probe classifies to
UNKNOWN (a provisional content-classified state is observed), and the
deadline then expires while the structured signal carries the unrecognized
token `"PAUSED"`.  The loop returns `"PAUSED"`, not the last provisional
content-classified state `"UNKNOWN"`: the claim's final clause ("returns the
last provisional content-classified state" whenever one was observed) fails,
because the code cannot distinguish an observed UNKNOWN from the initial
UNKNOWN sentinel. -/
theorem c5_counterexample :
    classify_from_html (ping_space c5x1.ping).1 (ping_space c5x1.ping).2
      = "UNKNOWN" ∧
    wait_until_running 5 10 [c5x1, c5x2] 0 "UNKNOWN" = some ("PAUSED", 10) ∧
    ("PAUSED" : String) ≠ "UNKNOWN" :=
  ⟨rfl, rfl, by decide⟩

/-! ### Claim C3 -/

def c3_step1 : Step :=
  ⟨.error "down", 50, .ok (200, some "Building the space"), 0⟩

def c3_step2 : Step :=
  ⟨.error "down", 60, .ok (200, some "Building the space"), 0⟩

def c3_script : List Step := [c3_step1, c3_step2]

/-- C3 counterexample: `restart_space` passes the requested `wait_after`
value to the wait loop unchanged — it applies no 480 floor.  With
`wait_after = 100` the loop hits its deadline at elapsed 125 and
`restart_space` returns the provisional WAKING_UP failure; with the floored
ceiling 480 the very same script is still being polled (the model's script
runs out, showing the loop did not stop).  The wait ceiling actually used
was 100, not ≥ 480. -/
theorem c3_counterexample :
    wait_until_running 100 15 c3_script 0 "UNKNOWN"
      = some ("WAKING_UP", 125) ∧
    restart_space (.ok 200) c3_script 100 = some (false, "WAKING_UP") ∧
    wait_until_running 480 15 c3_script 0 "UNKNOWN" = none ∧
    restart_space (.ok 200) c3_script 480 = none :=
  ⟨rfl, rfl, rfl, rfl⟩

/-- C3 (amended): the 480 floor is applied by the orchestrator, not inside
`restart_space`: every restart command `main` issues carries the wait ceiling
`max 480 wakeup_wait_seconds`, which is never less than 480; `restart_space`
itself forwards whatever ceiling it is given to the wait loop unchanged. -/
theorem c3_orchestrator_floor_amended :
    ∀ (env : EnvInput) (runs : Nat → SpaceRun) (os : List Outcome) (af : Bool)
      (ec : Nat) (cs : List (String × Int)),
      main env runs = some (os, af, ec, cs) →
      ∀ c ∈ cs, c.2 = max 480 (env_int env.wakeup_wait 240) ∧ (480 : Int) ≤ c.2 := by
  intro env runs os af ec cs h c hc
  simp only [main] at h
  split at h
  · simp only [Option.some.injEq, Prod.mk.injEq] at h
    obtain ⟨h1, h2, h3, h4⟩ := h
    rw [← h4] at hc
    exact absurd hc (by simp)
  · rw [Option.map_eq_some'] at h
    obtain ⟨⟨os', af', cs'⟩, hr, hEq⟩ := h
    simp only [Prod.mk.injEq] at hEq
    obtain ⟨h1, h2, h3, h4⟩ := hEq
    subst h4
    have hfloor :=
      (run_spaces_cases (env_str env.hf_token none)
        (env_int env.global_timeout 1800) (env_int env.wakeup_wait 240)
        (env_int env.between_requests 5) runs
        (parse_spaces ((env_str env.space_list (some "")).getD "")) 0 0
        os' af' cs' hr).2.1 c hc
    refine ⟨hfloor, ?_⟩
    rw [hfloor]
    exact le_max_left _ _

def c3w_env : EnvInput := ⟨some "tok", some "alice", some "s1", none, none, none⟩

def c3w_run : SpaceRun :=
  ⟨.ok (200, some ""), .ok (200, some ⟨some "BUILD_FAILED", none⟩), [],
   .ok 200, [⟨.ok (200, some ⟨some "RUNNING", none⟩), 3, .ok (200, some ""), 0⟩], 0⟩

theorem c3_orchestrator_floor_amended_witness :
    ("s1", (480 : Int)).2 = max 480 (env_int c3w_env.wakeup_wait 240) ∧
    (480 : Int) ≤ ("s1", (480 : Int)).2 :=
  c3_orchestrator_floor_amended c3w_env (fun _ => c3w_run)
    [⟨"s1", "重建", "RUNNING", true, ""⟩] false 0 [("s1", 480)] rfl
    ("s1", 480) (List.mem_singleton_self _)

/-! ### Claim C1 -/

def c1_env : EnvInput := ⟨none, some "alice", some "s1", none, none, none⟩

/-- World for the C1 counterexample: structured probe fails, page probe
returns status 100 with empty body, so the final check records
state UNKNOWN with success = false — but no branch sets the failure flag. -/
def c1_run : SpaceRun :=
  ⟨.ok (100, some ""), .error "boom", [], .ok 200, [], 0⟩

/-- C1 counterexample: a run records an Outcome with `success = false`
(the inconclusive final check) while the run-level failure flag stays false
and the exit code is 0 — "(exists an Outcome with success = false) iff (exit
code is the failure code)" fails in the right-to-left-preserving direction. -/
theorem c1_counterexample :
    main c1_env (fun _ => c1_run)
      = some ([⟨"s1", "检查", "UNKNOWN", false, ""⟩], false, 0, []) ∧
    (⟨"s1", "检查", "UNKNOWN", false, ""⟩ : Outcome).success = false :=
  ⟨rfl, rfl⟩

/-- C1 (amended): the exit code is the fatal code 2, with no Outcome
produced, exactly when the owner identifier or the target-list string is
missing; otherwise the exit code is 1 when the run-level failure flag is set
and 0 when it is not, and the flag being set implies some recorded Outcome
has `success = false`.  The converse implication fails: an inconclusive
final check, or a failed keep-alive followed by a successful rebuild,
records a failed Outcome without setting the flag. -/
theorem c1_exit_code_amended :
    ∀ (env : EnvInput) (runs : Nat → SpaceRun) (os : List Outcome) (af : Bool)
      (ec : Nat) (cs : List (String × Int)),
      main env runs = some (os, af, ec, cs) →
      ((opt_truthy (env_str env.username none) = false ∨
          opt_truthy (env_str env.space_list (some "")) = false) →
        ec = 2 ∧ os = []) ∧
      (opt_truthy (env_str env.username none) = true →
        opt_truthy (env_str env.space_list (some "")) = true →
        ec = (if af then 1 else 0) ∧ (af = true → ∃ o ∈ os, o.success = false)) := by
  intro env runs os af ec cs h
  simp only [main] at h
  split at h
  · rename_i hcond
    simp only [Option.some.injEq, Prod.mk.injEq] at h
    obtain ⟨h1, h2, h3, h4⟩ := h
    constructor
    · exact fun _ => ⟨h3.symm, h1.symm⟩
    · intro hu hl
      rcases hcond with hc | hc
      · rw [hu] at hc
        exact absurd hc (by simp)
      · rw [hl] at hc
        exact absurd hc (by simp)
  · rename_i hcond
    rw [Option.map_eq_some'] at h
    obtain ⟨⟨os', af', cs'⟩, hr, hEq⟩ := h
    simp only [Prod.mk.injEq] at hEq
    obtain ⟨h1, h2, h3, h4⟩ := hEq
    subst h1; subst h2; subst h3; subst h4
    refine ⟨fun hbad => absurd hbad hcond, fun _ _ => ⟨rfl, ?_⟩⟩
    intro haf
    exact (run_spaces_cases (env_str env.hf_token none)
      (env_int env.global_timeout 1800) (env_int env.wakeup_wait 240)
      (env_int env.between_requests 5) runs
      (parse_spaces ((env_str env.space_list (some "")).getD "")) 0 0
      os' af' cs' hr).1 haf

def c1w_env : EnvInput := ⟨none, some "alice", some "s1", none, none, none⟩

/-- World for the C1 witness: structured stage `RUNTIME_ERROR` with no
credential, so the rebuild is denied, a failed Outcome is recorded and the
failure flag is set. -/
def c1w_run : SpaceRun :=
  ⟨.ok (200, some ""), .ok (200, some ⟨some "RUNTIME_ERROR", none⟩), [],
   .ok 200, [], 0⟩

theorem c1_exit_code_amended_witness :
    ((1 : Nat) = if true then 1 else 0) ∧
    (true = true → ∃ o ∈ [missing_token_outcome "s1"], o.success = false) :=
  (c1_exit_code_amended c1w_env (fun _ => c1w_run) [missing_token_outcome "s1"]
    true 1 [] rfl).2 rfl rfl

/-! ### Claim C6 -/

/-- C6: the orchestrator never issues a restart command when the credential
is absent: for every environment whose credential is falsy and every world
behaviour, a completed run's list of issued restart commands is empty —
the structured-ERROR, content-ERROR and keep-alive-escalation branches all
record a failed Outcome or set the run-level failure flag instead. -/
theorem c6_no_restart_without_credential :
    ∀ (env : EnvInput) (runs : Nat → SpaceRun) (os : List Outcome) (af : Bool)
      (ec : Nat) (cs : List (String × Int)),
      opt_truthy (env_str env.hf_token none) = false →
      main env runs = some (os, af, ec, cs) → cs = [] := by
  intro env runs os af ec cs htk h
  simp only [main] at h
  split at h
  · simp only [Option.some.injEq, Prod.mk.injEq] at h
    exact h.2.2.2.symm
  · rw [Option.map_eq_some'] at h
    obtain ⟨⟨os', af', cs'⟩, hr, hEq⟩ := h
    simp only [Prod.mk.injEq] at hEq
    obtain ⟨h1, h2, h3, h4⟩ := hEq
    subst h4
    exact (run_spaces_cases (env_str env.hf_token none)
      (env_int env.global_timeout 1800) (env_int env.wakeup_wait 240)
      (env_int env.between_requests 5) runs
      (parse_spaces ((env_str env.space_list (some "")).getD "")) 0 0
      os' af' cs' hr).2.2 htk

def c6_env : EnvInput := ⟨none, some "alice", some "s1", none, none, none⟩

def c6_run : SpaceRun :=
  ⟨.ok (200, some ""), .ok (200, some ⟨some "RUNNING", none⟩), [], .ok 200, [], 0⟩

theorem c6_no_restart_without_credential_witness :
    opt_truthy (env_str c6_env.hf_token none) = false ∧
    ([] : List (String × Int)) = [] :=
  ⟨rfl, c6_no_restart_without_credential c6_env (fun _ => c6_run)
    [⟨"s1", "检查", "RUNNING", true, ""⟩] false 0 [] rfl rfl⟩

/-! ### Claim C10 -/

/-- C10: every numeric configuration value read at startup falls back to its
documented default when the environment value is absent (defaults 1800, 240
and 5 for the global deadline, wake-wait ceiling and pacing) or not parseable
as an integer (`env_int` is total — parse failure yields the default, never
an error); and a completed run aborts with the fatal code 2 exactly when the
owner identifier or the target-list string is missing, so malformed numeric
configuration is never treated as a fatal configuration error. -/
theorem c10_numeric_config_defaults :
    (env_int none 1800 = 1800 ∧ env_int none 240 = 240 ∧ env_int none 5 = 5) ∧
    (∀ (s : String) (d : Int), py_parse_int s = none → env_int (some s) d = d) ∧
    (∀ (env : EnvInput) (runs : Nat → SpaceRun) (os : List Outcome) (af : Bool)
      (ec : Nat) (cs : List (String × Int)),
      main env runs = some (os, af, ec, cs) →
      (ec = 2 ↔ (opt_truthy (env_str env.username none) = false ∨
                 opt_truthy (env_str env.space_list (some "")) = false))) := by
  refine ⟨⟨rfl, rfl, rfl⟩, ?_, ?_⟩
  · intro s d hp
    simp only [env_int, hp]
  · intro env runs os af ec cs h
    simp only [main] at h
    split at h
    · rename_i hcond
      simp only [Option.some.injEq, Prod.mk.injEq] at h
      obtain ⟨h1, h2, h3, h4⟩ := h
      exact ⟨fun _ => hcond, fun _ => h3.symm⟩
    · rename_i hcond
      rw [Option.map_eq_some'] at h
      obtain ⟨⟨os', af', cs'⟩, hr, hEq⟩ := h
      simp only [Prod.mk.injEq] at hEq
      obtain ⟨h1, h2, h3, h4⟩ := hEq
      constructor
      · intro h2eq
        rw [← h3] at h2eq
        cases af' <;> simp at h2eq
      · intro hbad
        exact absurd hbad hcond

theorem c10_numeric_config_defaults_witness :
    env_int (some "not a number") 1800 = 1800 :=
  c10_numeric_config_defaults.2.1 "not a number" 1800 rfl

end HFSpaceHelper
